import Mathlib

/-!
Verification development for the trendpulse backend analysis engine.

The Python sources are shallowly embedded here:
* `src/backend/sentiment_analyzer.py` (`SentimentAnalyzer`):
  input text is modelled as the list of its lowercase whitespace-separated
  words (`Text`); the word-boundary regex count of a keyword becomes the
  count of equal words.  `np.tanh` is an external real-analytic primitive,
  modelled as an explicit function parameter `tanhFn` (none of the verified
  properties depend on its values).  The neural model together with its
  tokenizer is modelled as an optional capability returning a raw
  `(score, confidence)` pair; `none` is the uninitialized state.
* `src/backend/etl/trend_calculator.py` (`TrendCalculator`): dates are
  modelled as naturals (the `'%Y-%m-%d'` strings sort lexicographically,
  i.e. chronologically); a `daily_counts` dict is a list of
  `(date, article_count)` pairs with distinct dates, and `sorted(keys)`
  becomes a merge sort on the first component.  Python floats are modelled
  as exact rationals.
* `src/backend/trend_analyzer.py` (`TrendAnalyzer`): `np.std`'s square
  root is an external primitive modelled as a function parameter `sqrtFn`
  (no verified property depends on its values).
-/

/-! ## Sentiment analyzer (src/backend/sentiment_analyzer.py) -/

/-- A text, modelled as the list of its lowercase whitespace-split words
(`text_lower.split()` in the source). -/
abbrev Text := List String

/-- Length of `text.strip()` for a text given as its word list: the words
joined by single spaces. -/
def strippedLen (ws : Text) : ℕ :=
  match ws with
  | [] => 0
  | _ => (ws.map String.length).sum + (ws.length - 1)

/-- The `'positive'` keyword list of `SentimentAnalyzer.sentiment_keywords`. -/
def positive_keywords : List String :=
  ["good", "great", "excellent", "amazing", "wonderful", "fantastic", "outstanding",
   "success", "achievement", "victory", "win", "progress", "improvement", "growth",
   "beneficial", "advantage", "positive", "optimistic", "hopeful", "promising",
   "breakthrough", "innovation", "solution", "opportunity", "boost", "rise",
   "celebrate", "joy", "happy", "pleased", "satisfied", "thrilled", "excited"]

/-- The `'negative'` keyword list of `SentimentAnalyzer.sentiment_keywords`. -/
def negative_keywords : List String :=
  ["bad", "terrible", "awful", "horrible", "disaster", "crisis", "problem",
   "failure", "defeat", "loss", "decline", "worsen", "deteriorate", "collapse",
   "harmful", "dangerous", "threat", "risk", "concern", "worry", "fear",
   "violence", "war", "conflict", "attack", "damage", "destruction", "death",
   "sad", "angry", "frustrated", "disappointed", "concerned", "alarmed"]

/-- The `'neutral'` keyword list of `SentimentAnalyzer.sentiment_keywords`. -/
def neutral_keywords : List String :=
  ["report", "announce", "state", "say", "according", "officials", "data",
   "information", "details", "statistics", "analysis", "study", "research"]

/-- The `negation_words` list of `SentimentAnalyzer.analyze_with_rules`. -/
def negation_words : List String :=
  ["not", "no", "never", "nothing", "nowhere", "neither", "nobody", "none"]

/-- Number of whole-word occurrences of `kw` in the text
(`len(re.findall(r'\b'+kw+r'\b', text_lower))` on the word-list model). -/
def countKeyword (ws : Text) (kw : String) : ℕ :=
  (ws.filter (fun w => w = kw)).length

/-- Total occurrence count over a keyword list (the summing `for` loops). -/
def countKeywords (ws : Text) (kws : List String) : ℕ :=
  (kws.map (countKeyword ws)).sum

/-- One classification result.  The four fields shared by every branch of the
source (`sentiment_score`, `sentiment_label`, `confidence`, `method`); the
debug-only `details` payload of the rule-based branch is not modelled. -/
structure SentimentResult where
  sentiment_score : ℚ
  sentiment_label : String
  confidence : ℚ
  method : String
deriving DecidableEq, Repr

/-- The `self.confidence_threshold` attribute set in
`SentimentAnalyzer.__init__` (0.5). -/
def confidence_threshold : ℚ := 1/2

/-- The `(positive_count, negative_count)` pair of
`SentimentAnalyzer.analyze_with_rules` after the negation adjustment
(`positive_count, negative_count = negative_count, positive_count` when
more than 2 negation words occur). -/
def rule_counts (ws : Text) : ℕ × ℕ :=
  let positive_count := countKeywords ws positive_keywords
  let negative_count := countKeywords ws negative_keywords
  let negation_count := countKeywords ws negation_words
  if negation_count > 2 then (negative_count, positive_count)
  else (positive_count, negative_count)

/-- Embedding of `SentimentAnalyzer.analyze_with_rules`.  `tanhFn` models
`np.tanh`. -/
def analyze_with_rules (tanhFn : ℚ → ℚ) (ws : Text) : SentimentResult :=
  if ws = [] then
    ⟨0, "neutral", 1/10, "rule-based"⟩
  else
    let total_words : ℕ := ws.length
    let positive_count := (rule_counts ws).1
    let negative_count := (rule_counts ws).2
    let total_sentiment_words := positive_count + negative_count
    if total_sentiment_words = 0 then
      ⟨0, "neutral", 1/10, "rule-based"⟩
    else
      let positive_ratio : ℚ := (positive_count : ℚ) / (max total_words 1 : ℕ)
      let negative_ratio : ℚ := (negative_count : ℚ) / (max total_words 1 : ℕ)
      let sentiment_score := tanhFn ((positive_ratio - negative_ratio) * 10)
      let sentiment_label :=
        if sentiment_score > 1/10 then "positive"
        else if sentiment_score < -(1/10) then "negative"
        else "neutral"
      let confidence := min ((total_sentiment_words : ℚ) / max ((total_words : ℚ) * (1/10)) 1) 1
      ⟨sentiment_score, sentiment_label, confidence, "rule-based"⟩

/-- Embedding of `SentimentAnalyzer.analyze_with_model`.  `model` is the
neural capability (model + tokenizer): `none` when uninitialized, otherwise
a map from text to the raw `(sentiment_score, confidence)` prediction. -/
def analyze_with_model (model : Option (Text → ℚ × ℚ)) (ws : Text) :
    Option SentimentResult :=
  match model with
  | none => none
  | some m =>
    let p := m ws
    if p.2 < confidence_threshold then none
    else
      let sentiment_label :=
        if p.1 > 1/10 then "positive"
        else if p.1 < -(1/10) then "negative"
        else "neutral"
      some ⟨p.1, sentiment_label, p.2, "neural"⟩

/-- Embedding of `SentimentAnalyzer.analyze_text` (the `classify`
entry point: neural first, blend at low confidence, rule-based fallback). -/
def analyze_text (tanhFn : ℚ → ℚ) (model : Option (Text → ℚ × ℚ)) (ws : Text) :
    SentimentResult :=
  if ws = [] ∨ strippedLen ws < 10 then analyze_with_rules tanhFn ws
  else
    match analyze_with_model model ws with
    | none => analyze_with_rules tanhFn ws
    | some nr =>
      if nr.confidence > confidence_threshold then nr
      else
        let rule_result := analyze_with_rules tanhFn ws
        if nr.confidence > 1/5 then
          let neural_weight := nr.confidence
          let rule_weight := rule_result.confidence
          let total_weight := neural_weight + rule_weight
          if total_weight > 0 then
            let blended_score :=
              (nr.sentiment_score * neural_weight +
               rule_result.sentiment_score * rule_weight) / total_weight
            let sentiment_label :=
              if blended_score > 1/10 then "positive"
              else if blended_score < -(1/10) then "negative"
              else "neutral"
            ⟨blended_score, sentiment_label, min (total_weight / 2) 1, "blended"⟩
          else rule_result
        else rule_result

/-! ## Trend calculator (src/backend/etl/trend_calculator.py) -/

/-- Python list slice `xs[a:b]` for non-negative bounds. -/
def pyslice (xs : List ℚ) (a b : ℕ) : List ℚ := (xs.take b).drop a

/-- `np.mean` of a list (on the empty list the source would yield NaN; every
reachable use below is on a non-empty slice). -/
def npMean (xs : List ℚ) : ℚ := xs.sum / (xs.length : ℚ)

/-- The `self.smoothing_window` attribute set in `TrendCalculator.__init__`. -/
def smoothing_window : ℕ := 7

/-- Embedding of `TrendCalculator._apply_smoothing` (centered moving
average; `window = None` selects `min(7, len // 3)`).  Python's
`max(0, i - window // 2)` is the truncated natural subtraction. -/
def apply_smoothing (values : List ℚ) (window : Option ℕ) : List ℚ :=
  let w := window.getD (min smoothing_window (values.length / 3))
  if w ≤ 1 then values
  else
    (List.range values.length).map (fun i =>
      npMean (pyslice values (i - w / 2) (min values.length (i + w / 2 + 1))))

/-- The `recent_avg` of `_calculate_trend_scores` at index `i`:
`np.mean(smoothed[max(0, i-2) : i+1])`. -/
def recent_avg (smoothed : List ℚ) (i : ℕ) : ℚ :=
  npMean (pyslice smoothed (i - 2) (i + 1))

/-- The `older_avg` of `_calculate_trend_scores` at index `i`:
`np.mean(smoothed[max(0, i-6) : max(1, i-3)])`. -/
def older_avg (smoothed : List ℚ) (i : ℕ) : ℚ :=
  npMean (pyslice smoothed (i - 6) (max 1 (i - 3)))

/-- The per-index trend score of `_calculate_trend_scores`: for `i ≥ 2`
the guarded relative change, else the neutral 0.5. -/
def trend_score_at (smoothed : List ℚ) (i : ℕ) : ℚ :=
  if 2 ≤ i then
    let r := recent_avg smoothed i
    let o := older_avg smoothed i
    if o > 0 then min (max ((r - o) / o + 1/2) 0) 1 else 1/2
  else 1/2

/-- The direction banding of `_calculate_trend_scores` for `i ≥ 2`. -/
def direction_of (trend_score : ℚ) : String :=
  if trend_score > 3/5 then "rising"
  else if trend_score < 2/5 then "falling"
  else "stable"

/-- One value of the `trend_data` dict built by `_calculate_trend_scores`. -/
structure TrendInfo where
  article_count : ℕ
  trend_score : ℚ
  trend_direction : String
deriving DecidableEq, Repr

/-- Comparator used to model `sorted(daily_counts.keys())`: sort the
`(date, count)` pairs by date. -/
def byDate (a b : ℕ × ℕ) : Bool := a.1 ≤ b.1

/-- Embedding of `TrendCalculator._calculate_trend_scores`.  The input dict
`daily_counts` is a list of `(date, article_count)` pairs with distinct
dates; the output dict (whose insertion order is the sorted date order) is
the list of `(date, trend_info)` pairs in sorted date order. -/
def calc_trend_scores (daily : List (ℕ × ℕ)) : List (ℕ × TrendInfo) :=
  let sorted := daily.mergeSort byDate
  let counts : List ℚ := sorted.map (fun p => (p.2 : ℚ))
  if counts.length < 3 then
    sorted.map (fun p => (p.1, ⟨p.2, 1/2, "stable"⟩))
  else
    let smoothed := apply_smoothing counts none
    sorted.enum.map (fun ip =>
      let score := trend_score_at smoothed ip.1
      let dir := if 2 ≤ ip.1 then direction_of score else "stable"
      (ip.2.1, ⟨ip.2.2, score, dir⟩))

/-- Embedding of `TrendCalculator._calculate_engagement_score`. -/
def calculate_engagement_score (article_count : ℕ) (trend_score : ℚ) : ℚ :=
  let normalized_count := min ((article_count : ℚ) / 10) 1
  let engagement := normalized_count * (7/10) + trend_score * (3/10)
  min (max engagement 0) 1

/-- A persisted `TopicTrend` row (src/backend/models.py), restricted to the
columns touched by `calculate_topic_country_trends`; `created_at` is a
timestamp modelled as a natural. -/
structure TopicTrendRow where
  article_count : ℕ
  trend_score : ℚ
  sentiment_avg : Option ℚ
  engagement_score : Option ℚ
  created_at : ℕ
deriving DecidableEq, Repr

/-- Embedding of the per-date save step of
`TrendCalculator.calculate_topic_country_trends` (lines 111–128): update the
existing row in place, or create a fresh one (whose `created_at` the column
default `func.now()` fills in). -/
def save_trend_step (existing : Option TopicTrendRow) (info : TrendInfo)
    (sentiment : Option ℚ) (now : ℕ) : TopicTrendRow :=
  match existing with
  | some t =>
    { t with
      article_count := info.article_count
      trend_score := info.trend_score
      sentiment_avg := sentiment
      created_at := now }
  | none =>
    { article_count := info.article_count
      trend_score := info.trend_score
      sentiment_avg := sentiment
      engagement_score := some (calculate_engagement_score info.article_count info.trend_score)
      created_at := now }

/-- Index list `np.arange(n)` as rationals. -/
def idxList (n : ℕ) : List ℚ := (List.range n).map (fun i => (i : ℚ))

/-- Centered second moment `Σ (a - mean xs) * (b - mean ys)` over zipped
lists (the building block of `scipy.stats.linregress`). -/
def ssum (xs ys : List ℚ) : ℚ :=
  ((xs.zip ys).map (fun p => (p.1 - npMean xs) * (p.2 - npMean ys))).sum

/-- The least-squares slope of `scores` against `np.arange(len(scores))`
(`scipy.stats.linregress` / `np.polyfit(x, y, 1)[0]`). -/
def slope_of (scores : List ℚ) : ℚ :=
  ssum (idxList scores.length) scores / ssum (idxList scores.length) (idxList scores.length)

/-- The intercept of the same least-squares fit. -/
def intercept_of (scores : List ℚ) : ℚ :=
  npMean scores - slope_of scores * npMean (idxList scores.length)

/-- `r_value ** 2` of `scipy.stats.linregress`: zero when either centered
sum of squares vanishes (scipy's explicit guard), else the squared
normalized covariance. -/
def r_squared (scores : List ℚ) : ℚ :=
  let xs := idxList scores.length
  if ssum xs xs = 0 ∨ ssum scores scores = 0 then 0
  else (ssum xs scores) ^ 2 / (ssum xs xs * ssum scores scores)

/-- The dict returned by `TrendCalculator.generate_trend_predictions`,
restricted to the fields computed from the score series. -/
structure TrendPrediction where
  predicted_score : ℚ
  confidence : ℚ
  trend_direction : String
deriving DecidableEq, Repr

/-- Embedding of `TrendCalculator.generate_trend_predictions` on the
historical `trend_score` series (ordered by date, as the query yields it):
`None` below 7 points, else the clamped linear extrapolation. -/
def generate_trend_predictions (scores : List ℚ) (days_ahead : ℕ) :
    Option TrendPrediction :=
  if scores.length < 7 then none
  else
    let slope := slope_of scores
    let intercept := intercept_of scores
    let future_x : ℚ := (scores.length : ℚ) + (days_ahead : ℚ)
    let predicted_score := min (max (slope * future_x + intercept) 0) 1
    let confidence := max (1/10) (r_squared scores)
    let dir :=
      if slope > 0 then "rising"
      else if slope < 0 then "falling"
      else "stable"
    some ⟨predicted_score, confidence, dir⟩

/-! ## Trend analyzer (src/backend/trend_analyzer.py) -/

/-- The last `k` elements of a list (Python `xs[-k:]` for `k ≥ 1`). -/
def lastN (k : ℕ) (xs : List ℚ) : List ℚ := xs.drop (xs.length - k)

/-- Population variance (`np.std` squared, default `ddof=0`). -/
def npVariance (xs : List ℚ) : ℚ :=
  npMean (xs.map (fun y => (y - npMean xs) ^ 2))

/-- The dict returned by `TrendAnalyzer._calculate_sentiment_trend`.  In the
source the `n < 2` branch returns only `direction` and `change`; the three
remaining fields are set to 0 there so the embedding has a single result
type (no verified property reads them in that branch). -/
structure SentimentTrend where
  direction : String
  change : ℚ
  current_sentiment : ℚ
  sentiment_slope : ℚ
  volatility : ℚ
deriving DecidableEq, Repr

/-- Embedding of `TrendAnalyzer._calculate_sentiment_trend`.  `sqrtFn`
models the square root inside `np.std`. -/
def calc_sentiment_trend (sqrtFn : ℚ → ℚ) (scores : List ℚ) : SentimentTrend :=
  if scores.length < 2 then ⟨"insufficient_data", 0, 0, 0, 0⟩
  else
    let n := scores.length
    let slope := slope_of scores
    let recent_sentiment := if 3 ≤ n then npMean (lastN 3 scores) else scores.getLastD 0
    let earlier_sentiment := if 3 < n then npMean (scores.take (n - 3)) else scores.headD 0
    let sentiment_change := recent_sentiment - earlier_sentiment
    let dir :=
      if sentiment_change > 1/20 then "improving"
      else if sentiment_change < -(1/20) then "deteriorating"
      else "stable"
    ⟨dir, sentiment_change, recent_sentiment, slope, sqrtFn (npVariance scores)⟩

/-- Modelled from the spec (the wording behind claim C8, §4.4): `recent` is
the mean of the last `min(3, n)` values, `earlier` the mean of the values
before that slice, or the single earliest value when fewer than 4 points
exist; direction banding at ±0.05.  Written to be compared against the
source embedding `calc_sentiment_trend`. -/
def sentiment_trend_spec (sqrtFn : ℚ → ℚ) (scores : List ℚ) : SentimentTrend :=
  if scores.length < 2 then ⟨"insufficient_data", 0, 0, 0, 0⟩
  else
    let n := scores.length
    let slope := slope_of scores
    let recent_sentiment := npMean (lastN (min 3 n) scores)
    let earlier_sentiment := if n < 4 then scores.headD 0 else npMean (scores.take (n - 3))
    let sentiment_change := recent_sentiment - earlier_sentiment
    let dir :=
      if sentiment_change > 1/20 then "improving"
      else if sentiment_change < -(1/20) then "deteriorating"
      else "stable"
    ⟨dir, sentiment_change, recent_sentiment, slope, sqrtFn (npVariance scores)⟩

/-- One entry of the `daily_metrics` list built by
`TrendAnalyzer._analyze_single_topic_trend` (the fields the forecaster
reads). -/
structure DailyMetric where
  article_count : ℚ
  avg_word_count : ℚ
  avg_sentiment : ℚ
  sentiment_variance : ℚ
  source_diversity : ℚ
  geographic_spread : ℚ
deriving DecidableEq, Repr

/-- The 6-feature vector built per day in
`TrendAnalyzer._predict_trend_with_model`. -/
def feature_vector (m : DailyMetric) : List ℚ :=
  [m.article_count, m.avg_word_count / 1000, m.avg_sentiment,
   m.sentiment_variance, m.source_diversity, m.geographic_spread]

/-- Net effect of the padding loop
`while len(features) < 7: features.insert(0, features[0])`: prepend copies
of the current first element until length 7.  On the empty list the
subscript `features[0]` in the source would raise; that case is unreachable
behind the `len ≥ 7` guard and is mapped to the empty list here. -/
def pad_to_7 (features : List (List ℚ)) : List (List ℚ) :=
  match features with
  | [] => []
  | f :: fs => List.replicate (7 - (f :: fs).length) f ++ f :: fs

/-- The dict returned by `TrendAnalyzer._predict_trend_with_model`. -/
structure MLPrediction where
  predicted_direction : String
  predicted_change : ℚ
  confidence : ℚ
  method : String
deriving DecidableEq, Repr

/-- Embedding of `TrendAnalyzer._predict_trend_with_model`.  `trend_model`
is the sequence-model capability (`self.trend_model`): `none` when
uninitialized, otherwise a map from the 7×6 feature window to the raw
scalar prediction. -/
def predict_trend_with_model (trend_model : Option (List (List ℚ) → ℚ))
    (daily_metrics : List DailyMetric) : Option MLPrediction :=
  match trend_model with
  | none => none
  | some m =>
    if daily_metrics.length < 7 then none
    else
      let features :=
        (daily_metrics.drop (daily_metrics.length - 7)).map feature_vector
      let features := pad_to_7 features
      let prediction := m features
      let dir :=
        if prediction > 1/10 then "increasing"
        else if prediction < -(1/10) then "decreasing"
        else "stable"
      some ⟨dir, prediction, min |prediction| 1, "tensorflow_lstm"⟩

/-! ## Theorems -/

/-- Every branch of the rule-based classifier reports method `rule-based`. -/
theorem analyze_with_rules_method (tanhFn : ℚ → ℚ) (ws : Text) :
    (analyze_with_rules tanhFn ws).method = "rule-based" := by
  unfold analyze_with_rules
  split
  · rfl
  · dsimp only
    split <;> rfl

/-- C5: when the neural capability is entirely absent (model or tokenizer
uninitialized), `analyze_text` always returns a result with
method `rule-based` (it is a total function, so it never raises), and on
empty input it returns the default neutral result
(score 0, label `neutral`, confidence 0.1). -/
theorem absent_model_rule_based (tanhFn : ℚ → ℚ) (ws : Text) :
    (analyze_text tanhFn none ws).method = "rule-based" ∧
    analyze_text tanhFn none [] = ⟨0, "neutral", 1/10, "rule-based"⟩ := by
  constructor
  · unfold analyze_text
    split
    · exact analyze_with_rules_method tanhFn ws
    · exact analyze_with_rules_method tanhFn ws
  · rfl

/-- C10: re-running the save step on an existing `TopicTrend` row overwrites
`article_count`, `trend_score`, `sentiment_avg` and `created_at` but leaves
the stored `engagement_score` unchanged; the engagement score is computed
only when the row is first created. -/
theorem update_preserves_engagement_score (t : TopicTrendRow) (info : TrendInfo)
    (s : Option ℚ) (now : ℕ) :
    (save_trend_step (some t) info s now).engagement_score = t.engagement_score ∧
    (save_trend_step (some t) info s now).article_count = info.article_count ∧
    (save_trend_step (some t) info s now).trend_score = info.trend_score ∧
    (save_trend_step (some t) info s now).sentiment_avg = s ∧
    (save_trend_step (some t) info s now).created_at = now ∧
    (save_trend_step none info s now).engagement_score =
      some (calculate_engagement_score info.article_count info.trend_score) :=
  ⟨rfl, rfl, rfl, rfl, rfl, rfl⟩

/-- C2: a daily-metric series with fewer than 3 days yields exactly one
trend point per input day, each carrying that day's article count, the
neutral trend score 0.5 and direction `stable`. -/
theorem short_series_neutral_stable (daily : List (ℕ × ℕ)) (h : daily.length < 3) :
    (calc_trend_scores daily).Perm
      (daily.map (fun p => (p.1, ⟨p.2, 1/2, "stable"⟩))) := by
  have hperm := List.mergeSort_perm daily byDate
  have hlen : ((daily.mergeSort byDate).map (fun p => ((p.2 : ℚ)))).length < 3 := by
    rw [List.length_map, hperm.length_eq]
    exact h
  simp only [calc_trend_scores]
  rw [if_pos hlen]
  exact hperm.map _

/-- Witness for `short_series_neutral_stable`: the single-day series
`[{count := 5}]`. -/
theorem short_series_neutral_stable_witness :
    (calc_trend_scores [(0, 5)]).Perm
      ([((0 : ℕ), (5 : ℕ))].map (fun p => (p.1, ⟨p.2, 1/2, "stable"⟩))) :=
  short_series_neutral_stable [(0, 5)] (by decide)

/-- C3: at any index `i ≥ 2` where the older-window average of the smoothed
counts is 0, the guard `older_avg > 0` is false — so the division branch is
unreachable — and the trend score is the neutral 0.5. -/
theorem zero_older_avg_gives_neutral (counts : List ℕ) (i : ℕ) (h2 : 2 ≤ i)
    (h0 : older_avg (apply_smoothing (counts.map (fun c => (c : ℚ))) none) i = 0) :
    ¬ 0 < older_avg (apply_smoothing (counts.map (fun c => (c : ℚ))) none) i ∧
    trend_score_at (apply_smoothing (counts.map (fun c => (c : ℚ))) none) i = 1/2 := by
  constructor
  · rw [h0]
    exact lt_irrefl 0
  · unfold trend_score_at
    rw [if_pos h2]
    simp only [h0, gt_iff_lt, lt_irrefl, if_false]

/-- Witness for `zero_older_avg_gives_neutral`: counts `[0, 0, 5]` at
index 2 (older window sees the smoothed zero day). -/
theorem zero_older_avg_gives_neutral_witness :
    older_avg (apply_smoothing (([0, 0, 5] : List ℕ).map (fun c => (c : ℚ))) none) 2 = 0 ∧
    ¬ 0 < older_avg (apply_smoothing (([0, 0, 5] : List ℕ).map (fun c => (c : ℚ))) none) 2 ∧
    trend_score_at (apply_smoothing (([0, 0, 5] : List ℕ).map (fun c => (c : ℚ))) none) 2 = 1/2 := by
  have h0 : older_avg (apply_smoothing (([0, 0, 5] : List ℕ).map (fun c => (c : ℚ))) none) 2 = 0 := by
    norm_num [older_avg, apply_smoothing, pyslice, npMean, smoothing_window]
  exact ⟨h0, (zero_older_avg_gives_neutral [0, 0, 5] 2 (by decide) h0).1,
    (zero_older_avg_gives_neutral [0, 0, 5] 2 (by decide) h0).2⟩

/-- C4: the regression forecaster produces no forecast below 7 historical
points (absence, not an exception); with at least 7 points it always
produces one, whose predicted score is clamped into `[0, 1]` and whose
confidence is `max(0.1, r_squared)`, hence at least 0.1. -/
theorem regression_forecast_contract (scores : List ℚ) (d : ℕ) :
    (scores.length < 7 → generate_trend_predictions scores d = none) ∧
    (7 ≤ scores.length → generate_trend_predictions scores d ≠ none) ∧
    (7 ≤ scores.length →
      ∀ p, generate_trend_predictions scores d = some p →
        0 ≤ p.predicted_score ∧ p.predicted_score ≤ 1 ∧
        p.confidence = max (1/10) (r_squared scores) ∧
        (1 : ℚ)/10 ≤ p.confidence) := by
  refine ⟨fun h => ?_, fun h7 => ?_, fun h7 p hp => ?_⟩
  · simp only [generate_trend_predictions]
    rw [if_pos h]
  · simp only [generate_trend_predictions]
    rw [if_neg (by omega)]
    simp
  · simp only [generate_trend_predictions] at hp
    rw [if_neg (by omega)] at hp
    have hp' := (Option.some.injEq _ _).mp hp
    rw [← hp']
    refine ⟨le_min (le_max_right _ _) zero_le_one, min_le_right _ _, rfl, le_max_left _ _⟩

/-- Witness for `regression_forecast_contract`: 3 points give no forecast;
the constant 7-point series `[0,...,0]` gives a forecast with the stated
confidence floor. -/
theorem regression_forecast_contract_witness :
    generate_trend_predictions [0, 0, 0] 7 = none ∧
    (0 ≤ (0 : ℚ) ∧ (0 : ℚ) ≤ 1 ∧
      (1 : ℚ)/10 = max (1/10) (r_squared [0, 0, 0, 0, 0, 0, 0]) ∧
      (1 : ℚ)/10 ≤ (1 : ℚ)/10) := by
  refine ⟨(regression_forecast_contract [0, 0, 0] 7).1 (by decide), ?_⟩
  exact (regression_forecast_contract [0, 0, 0, 0, 0, 0, 0] 7).2.2 (by decide)
    ⟨0, 1/10, "stable"⟩ (by
      norm_num [generate_trend_predictions, slope_of, intercept_of, r_squared, ssum,
        idxList, npMean, List.range_succ])

/-- C1 counterexample: a raw neural prediction with `(score, confidence)
= (0.8, 0.3)` is discarded by `analyze_with_model` (its confidence is below
the 0.5 threshold), so on a text whose rule-based result is
`(score, confidence) = (-0.2, 0.6)` the classifier returns that rule-based
result with method `rule-based` — not the blend the claim describes. -/
theorem neural_low_confidence_not_blended :
    analyze_with_rules (fun _ => -1/5) ("bad" :: "terrible" :: "awful" :: List.replicate 47 "xx")
      = ⟨-1/5, "negative", 3/5, "rule-based"⟩ ∧
    analyze_text (fun _ => -1/5) (some (fun _ => ((4 : ℚ)/5, (3 : ℚ)/10)))
        ("bad" :: "terrible" :: "awful" :: List.replicate 47 "xx")
      = ⟨-1/5, "negative", 3/5, "rule-based"⟩ ∧
    (analyze_text (fun _ => -1/5) (some (fun _ => ((4 : ℚ)/5, (3 : ℚ)/10)))
        ("bad" :: "terrible" :: "awful" :: List.replicate 47 "xx")).method ≠ "blended" := by
  have hne : ("bad" :: "terrible" :: "awful" :: List.replicate 47 "xx" : Text) ≠ [] := by decide
  have hc : rule_counts ("bad" :: "terrible" :: "awful" :: List.replicate 47 "xx") = (0, 3) := by
    decide
  have hrule : analyze_with_rules (fun _ => -1/5)
      ("bad" :: "terrible" :: "awful" :: List.replicate 47 "xx")
      = ⟨-1/5, "negative", 3/5, "rule-based"⟩ := by
    norm_num [analyze_with_rules, hc, hne, List.length_replicate, min_def]
  have h10 : ¬(("bad" :: "terrible" :: "awful" :: List.replicate 47 "xx" : Text) = [] ∨
      strippedLen ("bad" :: "terrible" :: "awful" :: List.replicate 47 "xx") < 10) := by
    decide
  have hm : analyze_with_model (some (fun _ => ((4 : ℚ)/5, (3 : ℚ)/10)))
      ("bad" :: "terrible" :: "awful" :: List.replicate 47 "xx") = none := by
    norm_num [analyze_with_model, confidence_threshold]
  have htext : analyze_text (fun _ => -1/5) (some (fun _ => ((4 : ℚ)/5, (3 : ℚ)/10)))
      ("bad" :: "terrible" :: "awful" :: List.replicate 47 "xx")
      = ⟨-1/5, "negative", 3/5, "rule-based"⟩ := by
    unfold analyze_text
    rw [if_neg h10, hm]
    exact hrule
  exact ⟨hrule, htext, by rw [htext]; decide⟩

/-- C1 amended: the blend branch is reachable only when the neural
confidence equals the 0.5 threshold exactly.  With a raw neural prediction
`(0.8, 0.5)` and the rule-based result `(-0.2, 0.6)`, the classifier
returns the confidence-weighted blend
`(0.8*0.5 + (-0.2)*0.6) / (0.5 + 0.6) = 14/55`, method `blended`, and
confidence `min((0.5 + 0.6)/2, 1) = 0.55`. -/
theorem blend_at_half_confidence :
    analyze_text (fun _ => -1/5) (some (fun _ => ((4 : ℚ)/5, (1 : ℚ)/2)))
        ("bad" :: "terrible" :: "awful" :: List.replicate 47 "xx")
      = ⟨14/55, "positive", 11/20, "blended"⟩ ∧
    (14 : ℚ)/55 = ((4/5) * (1/2) + (-1/5) * (3/5)) / ((1/2) + (3/5)) ∧
    (11 : ℚ)/20 = min (((1/2) + (3/5)) / 2) 1 := by
  have hne : ("bad" :: "terrible" :: "awful" :: List.replicate 47 "xx" : Text) ≠ [] := by decide
  have hc : rule_counts ("bad" :: "terrible" :: "awful" :: List.replicate 47 "xx") = (0, 3) := by
    decide
  have hrule : analyze_with_rules (fun _ => -1/5)
      ("bad" :: "terrible" :: "awful" :: List.replicate 47 "xx")
      = ⟨-1/5, "negative", 3/5, "rule-based"⟩ := by
    norm_num [analyze_with_rules, hc, hne, List.length_replicate, min_def]
  have h10 : ¬(("bad" :: "terrible" :: "awful" :: List.replicate 47 "xx" : Text) = [] ∨
      strippedLen ("bad" :: "terrible" :: "awful" :: List.replicate 47 "xx") < 10) := by
    decide
  have hm : analyze_with_model (some (fun _ => ((4 : ℚ)/5, (1 : ℚ)/2)))
      ("bad" :: "terrible" :: "awful" :: List.replicate 47 "xx")
      = some ⟨4/5, "positive", 1/2, "neural"⟩ := by
    norm_num [analyze_with_model, confidence_threshold]
  refine ⟨?_, by norm_num, by norm_num [min_def]⟩
  unfold analyze_text
  rw [if_neg h10, hm]
  simp only [confidence_threshold, hrule]
  norm_num [min_def]

/-- C6 counterexample: with fewer than 7 days of history (here 6) the
sequence-model forecaster returns no forecast at all — the length guard
fires before the padding step, even with the model capability present. -/
theorem short_history_no_ml_forecast :
    predict_trend_with_model (some (fun _ => 1)) (List.replicate 6 ⟨1, 1, 0, 0, 1, 1⟩) = none := by
  decide

/-- C6 amended: for histories shorter than 7 days the sequence-model
forecaster produces no forecast (`none`); the padding step exists in the
source but is unreachable — whenever the guard passes, the feature window
is the last 7 days and padding leaves it unchanged. -/
theorem ml_forecast_requires_seven (tm : Option (List (List ℚ) → ℚ))
    (metrics : List DailyMetric) :
    (metrics.length < 7 → predict_trend_with_model tm metrics = none) ∧
    (7 ≤ metrics.length →
      pad_to_7 ((metrics.drop (metrics.length - 7)).map feature_vector) =
        (metrics.drop (metrics.length - 7)).map feature_vector) := by
  constructor
  · intro h
    cases tm with
    | none => rfl
    | some m =>
      simp only [predict_trend_with_model]
      rw [if_pos h]
  · intro h7
    have hlen : ((metrics.drop (metrics.length - 7)).map feature_vector).length = 7 := by
      rw [List.length_map, List.length_drop]
      omega
    cases hfs : (metrics.drop (metrics.length - 7)).map feature_vector with
    | nil => rw [hfs] at hlen; simp at hlen
    | cons f fs =>
      rw [hfs] at hlen
      simp only [pad_to_7]
      rw [show 7 - (f :: fs).length = 0 from by omega]
      rfl

/-- Witness for `ml_forecast_requires_seven`: a 5-day history yields no
forecast, and on a 7-day history the padding is the identity. -/
theorem ml_forecast_requires_seven_witness :
    predict_trend_with_model (some (fun _ => 0)) (List.replicate 5 (⟨2, 3, 0, 0, 1, 1⟩ : DailyMetric)) = none ∧
    pad_to_7 (((List.replicate 7 (⟨2, 3, 0, 0, 1, 1⟩ : DailyMetric)).drop
        ((List.replicate 7 (⟨2, 3, 0, 0, 1, 1⟩ : DailyMetric)).length - 7)).map feature_vector) =
      ((List.replicate 7 (⟨2, 3, 0, 0, 1, 1⟩ : DailyMetric)).drop
        ((List.replicate 7 (⟨2, 3, 0, 0, 1, 1⟩ : DailyMetric)).length - 7)).map feature_vector :=
  ⟨(ml_forecast_requires_seven (some (fun _ => 0)) _).1 (by decide),
   (ml_forecast_requires_seven (some (fun _ => 0)) _).2 (by decide)⟩

/-- C7 counterexample: the fitted slope `3/2800 ≈ 0.001` of the series
`[0.5, 0.5, 0.5, 0.5, 0.5, 0.5, 0.51]` lies well inside any small dead-zone
around 0 (its magnitude is below 0.05), yet the regression forecaster
labels the direction `rising`, not `stable`. -/
theorem tiny_slope_labeled_rising :
    slope_of [1/2, 1/2, 1/2, 1/2, 1/2, 1/2, 51/100] = 3/2800 ∧
    (0 : ℚ) < 3/2800 ∧ (3 : ℚ)/2800 < 1/20 ∧
    (generate_trend_predictions [1/2, 1/2, 1/2, 1/2, 1/2, 1/2, 51/100] 7).map
      TrendPrediction.trend_direction = some "rising" := by
  have hs : slope_of [1/2, 1/2, 1/2, 1/2, 1/2, 1/2, 51/100] = 3/2800 := by
    norm_num [slope_of, ssum, idxList, npMean, List.range_succ]
  refine ⟨hs, by norm_num, by norm_num, ?_⟩
  have hgen : generate_trend_predictions [1/2, 1/2, 1/2, 1/2, 1/2, 1/2, 51/100] 7 =
      some ⟨1437/2800, 3/8, "rising"⟩ := by
    norm_num [generate_trend_predictions, slope_of, intercept_of, r_squared, ssum, idxList,
      npMean, List.range_succ, min_def, max_def]
  rw [hgen]
  rfl

/-- C7 amended: the regression forecaster derives the direction label from
the strict sign of the fitted slope with no dead-zone: `rising` iff the
slope is positive, `falling` iff negative, and `stable` only when the slope
is exactly 0. -/
theorem forecast_direction_sign (scores : List ℚ) (d : ℕ) (p : TrendPrediction)
    (hp : generate_trend_predictions scores d = some p) :
    (p.trend_direction = "rising" ↔ 0 < slope_of scores) ∧
    (p.trend_direction = "falling" ↔ slope_of scores < 0) ∧
    (p.trend_direction = "stable" ↔ slope_of scores = 0) := by
  simp only [generate_trend_predictions] at hp
  by_cases hlen : scores.length < 7
  · rw [if_pos hlen] at hp
    exact absurd hp (by simp)
  · rw [if_neg hlen] at hp
    have hp' := (Option.some.injEq _ _).mp hp
    subst hp'
    dsimp only
    rcases lt_trichotomy (slope_of scores) 0 with hs | hs | hs
    · rw [if_neg (by simp only [gt_iff_lt]; exact not_lt.mpr hs.le), if_pos hs]
      simp [hs, lt_asymm hs, hs.ne]
    · rw [if_neg (by simp only [gt_iff_lt]; exact not_lt.mpr hs.le),
        if_neg (by rw [hs]; exact lt_irrefl 0)]
      simp [hs]
    · rw [if_pos hs]
      simp [hs, lt_asymm hs, hs.ne']

/-- Witness for `forecast_direction_sign`: the constant series
`[0, 0, 0, 0, 0, 0, 0]` has slope 0 and direction `stable`. -/
theorem forecast_direction_sign_witness :
    (((⟨0, 1/10, "stable"⟩ : TrendPrediction).trend_direction = "rising") ↔
      0 < slope_of ([0, 0, 0, 0, 0, 0, 0] : List ℚ)) ∧
    (((⟨0, 1/10, "stable"⟩ : TrendPrediction).trend_direction = "falling") ↔
      slope_of ([0, 0, 0, 0, 0, 0, 0] : List ℚ) < 0) ∧
    (((⟨0, 1/10, "stable"⟩ : TrendPrediction).trend_direction = "stable") ↔
      slope_of ([0, 0, 0, 0, 0, 0, 0] : List ℚ) = 0) :=
  forecast_direction_sign [0, 0, 0, 0, 0, 0, 0] 7 ⟨0, 1/10, "stable"⟩ (by
    norm_num [generate_trend_predictions, slope_of, intercept_of, r_squared, ssum,
      idxList, npMean, List.range_succ])

/-- C8 counterexample: on the 2-point series `[0, 0.08]` the source takes
`recent` to be the last single value (0.08), giving change 0.08 and
direction `improving`; the claimed formula (`recent = mean of the last
min(3, n) = 2 values`) would give change 0.04 and direction `stable`. -/
theorem two_point_recent_uses_last_value :
    (calc_sentiment_trend id [0, 2/25]).change = 2/25 ∧
    (calc_sentiment_trend id [0, 2/25]).direction = "improving" ∧
    (sentiment_trend_spec id [0, 2/25]).change = 1/25 ∧
    (sentiment_trend_spec id [0, 2/25]).direction = "stable" ∧
    calc_sentiment_trend id [0, 2/25] ≠ sentiment_trend_spec id [0, 2/25] := by
  have h1 : calc_sentiment_trend id [0, 2/25] = ⟨"improving", 2/25, 2/25, 2/25, 1/625⟩ := by
    norm_num [calc_sentiment_trend, slope_of, ssum, idxList, npMean, npVariance, lastN,
      List.range_succ]
  have h2 : sentiment_trend_spec id [0, 2/25] = ⟨"stable", 1/25, 1/25, 2/25, 1/625⟩ := by
    norm_num [sentiment_trend_spec, slope_of, ssum, idxList, npMean, npVariance, lastN,
      List.range_succ]
  rw [h1, h2]
  refine ⟨rfl, rfl, rfl, rfl, by decide⟩

/-- C8 amended: for series of length at least 3 the source agrees exactly
with the claimed formulas (`recent = mean(last 3) = mean(last min(3,n))`,
`earlier = mean(values before that slice)` or the earliest value when fewer
than 4 points exist, `change = recent - earlier`, direction banding at
±0.05); only the 2-point case deviates, using the last single value as
`recent`. -/
theorem sentiment_trend_agrees_from_three (sqrtFn : ℚ → ℚ) (scores : List ℚ)
    (h : 3 ≤ scores.length) :
    calc_sentiment_trend sqrtFn scores = sentiment_trend_spec sqrtFn scores := by
  unfold calc_sentiment_trend sentiment_trend_spec
  rw [if_neg (by omega), if_neg (by omega)]
  dsimp only
  rw [if_pos h, min_eq_left h]
  by_cases h4 : 3 < scores.length
  · rw [if_pos h4, if_neg (show ¬ scores.length < 4 by omega)]
  · rw [if_neg h4, if_pos (show scores.length < 4 by omega)]

/-- Witness for `sentiment_trend_agrees_from_three`: the 3-point series
`[0, 0, 1]`. -/
theorem sentiment_trend_agrees_witness :
    calc_sentiment_trend id [0, 0, 1] = sentiment_trend_spec id [0, 0, 1] :=
  sentiment_trend_agrees_from_three id [0, 0, 1] (by decide)

/-- C9: the Trend Scorer is deterministic — recomputing on an identical
daily-metric series (the same day/count pairs, in any dict-iteration
order, with distinct days as dict keys guarantee) yields the identical
trend-point sequence: same dates in the same sorted order, with the same
article counts, trend scores and directions. -/
theorem trend_scores_permutation_invariant (d1 d2 : List (ℕ × ℕ))
    (hperm : d1.Perm d2) (hnodup : (d1.map Prod.fst).Nodup) :
    calc_trend_scores d1 = calc_trend_scores d2 := by
  have htrans : ∀ a b c : ℕ × ℕ, byDate a b = true → byDate b c = true → byDate a c = true := by
    intro a b c hab hbc
    simp only [byDate, decide_eq_true_eq] at hab hbc ⊢
    omega
  have htot : ∀ a b : ℕ × ℕ, (byDate a b || byDate b a) = true := by
    intro a b
    simp only [byDate, Bool.or_eq_true, decide_eq_true_eq]
    omega
  have hs : d1.mergeSort byDate = d2.mergeSort byDate := by
    have hp : (d1.mergeSort byDate).Perm (d2.mergeSort byDate) :=
      ((List.mergeSort_perm d1 byDate).trans hperm).trans (List.mergeSort_perm d2 byDate).symm
    have hs1 := List.sorted_mergeSort htrans htot d1
    have hs2 := List.sorted_mergeSort htrans htot d2
    have hn1 : ((d1.mergeSort byDate).map Prod.fst).Nodup :=
      (((List.mergeSort_perm d1 byDate).map Prod.fst).nodup_iff).mpr hnodup
    have hn2 : ((d2.mergeSort byDate).map Prod.fst).Nodup := by
      have hd2 : (d2.map Prod.fst).Nodup := ((hperm.map Prod.fst).nodup_iff).mp hnodup
      exact (((List.mergeSort_perm d2 byDate).map Prod.fst).nodup_iff).mpr hd2
    have hlt1 : List.Pairwise (fun a b : ℕ × ℕ => a.1 < b.1) (d1.mergeSort byDate) := by
      have hne := (List.pairwise_map).mp hn1
      exact (hs1.and hne).imp
        (fun h => lt_of_le_of_ne (by simpa [byDate, decide_eq_true_eq] using h.1) h.2)
    have hlt2 : List.Pairwise (fun a b : ℕ × ℕ => a.1 < b.1) (d2.mergeSort byDate) := by
      have hne := (List.pairwise_map).mp hn2
      exact (hs2.and hne).imp
        (fun h => lt_of_le_of_ne (by simpa [byDate, decide_eq_true_eq] using h.1) h.2)
    haveI : IsAntisymm (ℕ × ℕ) (fun a b : ℕ × ℕ => a.1 < b.1) :=
      ⟨fun a b h1 h2 => absurd (h1.trans h2) (lt_irrefl _)⟩
    exact List.eq_of_perm_of_sorted hp hlt1 hlt2
  simp only [calc_trend_scores]
  rw [hs]

/-- Witness for `trend_scores_permutation_invariant`: the two-day series
presented in two different orders. -/
theorem trend_scores_permutation_invariant_witness :
    calc_trend_scores [(1, 2), (0, 3)] = calc_trend_scores [(0, 3), (1, 2)] :=
  trend_scores_permutation_invariant _ _ (by decide) (by decide)
